import Mathlib

/-!
Verification of the `InterHand3DDataset` module
(`mmpose/datasets/datasets/hand/interhand3d_dataset.py`).

The Python source is shallowly embedded: numpy row vectors become `Pt3`
(a triple of rationals), numpy float arrays become lists of rationals,
2-element int vectors become pairs of integers, raised Python exceptions
become `Except.error`, and numpy's NaN result for the mean of an empty
selection becomes `none` in an `Option` result.  Real-valued Euclidean
norms (needed by the evaluation metrics) live in `ℝ` via `Real.sqrt`.
-/

namespace InterHand3D

/-- A 3D point with rational coordinates, embedding one row of an `[N, 3]`
numpy array of joint coordinates. -/
structure Pt3 where
  x : ℚ
  y : ℚ
  z : ℚ
  deriving DecidableEq

instance : Sub Pt3 := ⟨fun a b => ⟨a.x - b.x, a.y - b.y, a.z - b.z⟩⟩

@[simp] theorem Pt3.sub_def (a b : Pt3) :
    a - b = ⟨a.x - b.x, a.y - b.y, a.z - b.z⟩ := rfl

/-- The depth guard `1e-8` added to the denominator in `_cam2pixel`. -/
def qeps : ℚ := 1 / 100000000

/-- A 3×3 camera rotation matrix, stored by rows. -/
structure Mat3 where
  r0 : Pt3
  r1 : Pt3
  r2 : Pt3
  deriving DecidableEq

/-- Dot product of two 3-vectors. -/
def dotPt (a b : Pt3) : ℚ := a.x * b.x + a.y * b.y + a.z * b.z

/-- `_world2cam` (lines 136-155): `cam_coord = np.dot(R, world_coord - T)`,
written per joint: each camera coordinate is a row of `R` dotted with
`world - T`. -/
def world2camPt (w : Pt3) (R : Mat3) (T : Pt3) : Pt3 :=
  ⟨dotPt R.r0 (w - T), dotPt R.r1 (w - T), dotPt R.r2 (w - T)⟩

/-- `_cam2pixel` (lines 112-134), per joint:
`x = cam_x / (cam_z + 1e-8) * f[0] + c[0]`, `y` analogous, and the output
`z` is fixed to `0` (`z = np.zeros_like(x)`). -/
def cam2pixelPt (p : Pt3) (f c : ℚ × ℚ) : Pt3 :=
  ⟨p.x / (p.z + qeps) * f.1 + c.1, p.y / (p.z + qeps) * f.2 + c.2, 0⟩

/-- `_pixel2cam` (lines 157-179), per joint:
`x = (pix_x - c[0]) / f[0] * pix_z`, `y` analogous, `z = pix_z`. -/
def pixel2camPt (p : Pt3) (f c : ℚ × ℚ) : Pt3 :=
  ⟨(p.x - c.1) / f.1 * p.z, (p.y - c.2) / f.2 * p.z, p.z⟩

/-- Replace the (zeroed-out) pixel-space depth with a depth carried
separately, as the evaluation code does with `pred[:, 2] += abs_depth`
before calling `_pixel2cam`. -/
def setZ (p : Pt3) (d : ℚ) : Pt3 := ⟨p.x, p.y, d⟩

/-- The camera→pixel→camera composition used in the spec's round-trip
property: project into pixel space, carry the original camera depth through
separately, and reproject into camera space. -/
def roundTrip (cam : Pt3) (f c : ℚ × ℚ) : Pt3 :=
  pixel2camPt (setZ (cam2pixelPt cam f c) cam.z) f c

/-- `_process_handtype` (lines 181-190): `right → [1, 0]`, `left → [0, 1]`,
`interacting → [1, 1]`, anything else hits `assert 0` and raises. -/
def processHandtype (hand_type : String) : Except String (ℤ × ℤ) :=
  if hand_type = "right" then .ok (1, 0)
  else if hand_type = "left" then .ok (0, 1)
  else if hand_type = "interacting" then .ok (1, 1)
  else .error ("AssertionError: Not support hand type: " ++ hand_type)

/-! ### numpy primitives used by the embedding -/

/-- `np.mean` over a 1-D selection: NaN (modelled as `none`) on an empty
selection, otherwise the arithmetic mean. -/
def npMean {α : Type} [DivisionRing α] (xs : List α) : Option α :=
  if xs.isEmpty then none else some (xs.sum / (xs.length : α))

/-- Boolean-mask selection `xs[mask]` of numpy. -/
def maskSelect {α : Type} (xs : List α) (mask : List Bool) : List α :=
  (xs.zip mask).filterMap (fun p => if p.2 then some p.1 else none)

/-- Reading the column `j` of every row of a slice of a 2-D numpy array
(`m[lo:hi, j]` with the slice already applied); column index out of bounds
raises `IndexError`. -/
def npSliceCol (m : List (List ℚ)) (j : Nat) : Except String (List ℚ) :=
  if ∀ r ∈ m, j < r.length then .ok (m.map (fun r => r.getD j 0))
  else .error "IndexError"

/-- Reading a single entry `m[i, j]` of a 2-D numpy array with bounds
checks. -/
def npGet2 (m : List (List ℚ)) (i j : Nat) : Except String ℚ :=
  if i < m.length then
    if j < (m.getD i []).length then .ok ((m.getD i []).getD j 0)
    else .error "IndexError"
  else .error "IndexError"

/-- Writing `m[lo:hi, j] = vals` into a 2-D numpy array with a bounds check
on the column index. -/
def npSetColRange (m : List (List ℚ)) (lo hi j : Nat) (vals : List ℚ) :
    Except String (List (List ℚ)) :=
  if ∀ r ∈ (m.drop lo).take (hi - lo), j < r.length then
    .ok (m.mapIdx (fun i r =>
      if lo ≤ i ∧ i < hi then r.set j (vals.getD (i - lo) 0) else r))
  else .error "IndexError"

/-! ### Database Builder: per-record joint assembly (`_get_db`) -/

/-- Lines 263-267 of `_get_db`, on one image's data.  `joint_img` is the
`[42, 2]` pixel-coordinate array, `joint_cam` the `[42, 3]` camera-space
array.  The source executes

```
joints_3d = np.zeros((num_joints, 3), dtype=np.float32)
joints_3d[:, :2] = joint_img
joints_3d[:21, 3] = joint_cam[:21, 3] - joint_cam[20, 3]
joints_3d[21:, 3] = joint_cam[21:, 3] - joint_cam[41, 3]
```

reading and writing column index 3; each slice read and column write is
embedded with numpy's bounds check. -/
def buildJoints3d (joint_img : List (ℚ × ℚ)) (joint_cam : List (List ℚ)) :
    Except String (List (List ℚ)) := do
  let base := joint_img.map (fun p => [p.1, p.2, (0 : ℚ)])
  let colR ← npSliceCol (joint_cam.take 21) 3
  let wR ← npGet2 joint_cam 20 3
  let j1 ← npSetColRange base 0 21 3 (colR.map (fun q => q - wR))
  let colL ← npSliceCol (joint_cam.drop 21) 3
  let wL ← npGet2 joint_cam 41 3
  let j2 ← npSetColRange j1 21 42 3 (colL.map (fun q => q - wL))
  pure j2

/-- Lines 258-261 of `_get_db` on the 42-entry `joint_valid` array,
represented as a function on indices `0..41`:

```
joint_valid[:20] *= joint_valid[20]
joint_valid[21:] *= joint_valid[41]
```

The first statement leaves indices `20..41` untouched, so the factor
`joint_valid[41]` read by the second statement is the original value. -/
def propagateRootValid (v : Fin 42 → ℚ) : Fin 42 → ℚ := fun i =>
  if (i : ℕ) < 20 then v i * v 20
  else if 21 ≤ (i : ℕ) then v i * v 41
  else v i

/-! ### Database Builder: root depth configuration -/

/-- One entry of the rootnet (external root-depth estimator) result table:
a bounding box and the two absolute wrist depths. -/
structure RootEntry where
  bbox : ℚ × ℚ × ℚ × ℚ
  abs_depth : ℚ × ℚ
  deriving DecidableEq

/-- Lines 102-105 of `__init__`:

```
self.use_gt_root_depth = use_gt_root_depth
if self.use_gt_root_depth:
    assert rootnet_result_file is not None
    self.rootnet_result_file = rootnet_result_file
```

The guard tests `use_gt_root_depth` directly (there is no `not`), so the
assertion fires exactly when ground-truth root depth is in use. -/
def rootnetFileCheck (use_gt_root_depth : Bool)
    (rootnet_result_file : Option String) : Except String Unit :=
  if use_gt_root_depth then
    if rootnet_result_file.isSome then .ok () else .error "AssertionError"
  else .ok ()

/-- Lines 204-210 of `_get_db`: the rootnet result table is read and turned
into an id-keyed dictionary only under `if self.use_gt_root_depth:`; in the
other configuration the local name `rootnet_result` is never bound
(modelled as `none`). -/
def loadedRootnetTable (use_gt_root_depth : Bool)
    (tbl : List (String × RootEntry)) : Option (List (String × RootEntry)) :=
  if use_gt_root_depth then some tbl else none

/-- Lines 248-256 of `_get_db`, producing `(center, scale)` and `abs_depth`
for one record.  `xywh2cs` stands for the inherited helper
`self._xywh2cs(*bbox, padding)` (defined outside this module); what the
lines under scrutiny determine is which bounding box and which padding
factor it receives.  In the `use_gt_root_depth` branch the annotated bbox is
used with padding `1.25` and the wrist camera depths `zR = joint_cam[20, 2]`,
`zL = joint_cam[41, 2]`; in the other branch the code evaluates
`rootnet_result[str(ann_id[0])]`, which is a `NameError` when the table was
never bound and a `KeyError` when the id is missing from it. -/
def rootDepthInfo (use_gt_root_depth : Bool)
    (table : Option (List (String × RootEntry)))
    (xywh2cs : (ℚ × ℚ × ℚ × ℚ) → ℚ → (ℚ × ℚ) × (ℚ × ℚ))
    (annBbox : ℚ × ℚ × ℚ × ℚ) (annId : String) (zR zL : ℚ) :
    Except String (((ℚ × ℚ) × (ℚ × ℚ)) × (ℚ × ℚ)) :=
  if use_gt_root_depth then
    .ok (xywh2cs annBbox (125 / 100), (zR, zL))
  else
    match table with
    | none => .error "NameError: name rootnet_result is not defined"
    | some t =>
      match (t.find? (fun e => e.1 = annId)) with
      | none => .error ("KeyError: " ++ annId)
      | some e => .ok (xywh2cs e.2.bbox 1, e.2.abs_depth)

/-- The composition of the table-loading step (lines 204-210) with the
per-record branch (lines 248-256), as `_get_db` runs them. -/
def getDbRootInfo (use_gt_root_depth : Bool)
    (tbl : List (String × RootEntry))
    (xywh2cs : (ℚ × ℚ × ℚ × ℚ) → ℚ → (ℚ × ℚ) × (ℚ × ℚ))
    (annBbox : ℚ × ℚ × ℚ × ℚ) (annId : String) (zR zL : ℚ) :
    Except String (((ℚ × ℚ) × (ℚ × ℚ)) × (ℚ × ℚ)) :=
  rootDepthInfo use_gt_root_depth (loadedRootnetTable use_gt_root_depth tbl)
    xywh2cs annBbox annId zR zL

/-! ### Metric Reporter (`evaluate`, `_report_metric`, `_get_accuracy`) -/

/-- One ground-truth record of `self.db`, restricted to the fields that
`_report_metric` reads.  `joints_3d_visible` holds the column-0 visibility
values of the 42 joints, `hand_type` the 2-element int vector, and
`hand_type_valid` the raw flag compared with `> 0`. -/
structure DbItem where
  hand_type : ℤ × ℤ
  hand_type_valid : ℚ
  joints_3d_visible : List ℚ
  abs_depth : ℚ × ℚ
  joints_cam : List Pt3
  focal : ℚ × ℚ
  princpt : ℚ × ℚ
  deriving DecidableEq

/-- One prediction entry of the results file, restricted to the fields that
`_report_metric` reads. -/
structure Pred where
  keypoints : List Pt3
  hand_type : ℤ × ℤ
  rel_root_depth : ℚ
  deriving DecidableEq

/-- Modelled from the spec: `keypoint_epe` is imported from
`mmpose.core.evaluation.top_down_eval`, which is not under `src/`.  The
spec describes it as the shared Euclidean-distance averaging primitive:
"given predicted and ground-truth coordinate arrays and a boolean validity
mask of matching shape, compute the per-point Euclidean norm of the
difference, then the arithmetic mean over only the positions where the mask
is true", the mean of an empty selection being numpy's NaN (here `none`). -/
noncomputable def dist3 (a b : Pt3) : ℝ :=
  Real.sqrt (((a.x - b.x) ^ 2 + (a.y - b.y) ^ 2 + (a.z - b.z) ^ 2 : ℚ) : ℝ)

/-- Modelled from the spec: the masked mean of per-point Euclidean norms
(see `dist3`). -/
noncomputable def keypoint_epe (preds gts : List Pt3) (mask : List Bool) :
    Option ℝ :=
  npMean (maskSelect (List.zipWith dist3 preds gts) mask)

/-- The inclusion test of the MRRPE branch (lines 439-440):
`item['hand_type'].all() and item['joints_3d_visible'][20, 0] and
item['joints_3d_visible'][41, 0]` — both hand-type components nonzero and
both wrist visibility entries nonzero.  `hand_type_valid` is not read. -/
def mrrpeIncluded (item : DbItem) : Bool :=
  decide (item.hand_type.1 ≠ 0) && decide (item.hand_type.2 ≠ 0) &&
  decide (item.joints_3d_visible.getD 20 0 ≠ 0) &&
  decide (item.joints_3d_visible.getD 41 0 ≠ 0)

/-- The value handed to a `_pixel2cam` call at runtime: the MRRPE branch
passes `pred['keypoints'][41].copy()`, a plain 1-D Python list of 3 floats
(`preds` comes from `json.load` of the results file, whose keypoints were
stored with `.tolist()`), while the MPJPE branch first wraps the keypoints
in `np.array(...)`, producing a 2-D array of rows. -/
inductive PyCoords where
  | list1 (p : Pt3)
  | arr2 (rows : List Pt3)
  deriving DecidableEq

/-- `_pixel2cam` as executed at runtime: line 175 evaluates
`pixel_coord[:, 0]`, which on a plain 1-D list raises
`TypeError: list indices must be integers or slices, not tuple`, and on a
2-D array applies the per-row reprojection `pixel2camPt`. -/
def pixel2cam (p : PyCoords) (f c : ℚ × ℚ) : Except String (List Pt3) :=
  match p with
  | .list1 _ =>
    .error "TypeError: list indices must be integers or slices, not tuple"
  | .arr2 rows => .ok (rows.map (fun r => pixel2camPt r f c))

/-- Lines 438-461: one loop iteration of the MRRPE branch, producing the
appended mask bit and the appended predicted and ground-truth root
differences (the zero placeholders on the excluded path).  On the included
path the source builds `pred_left_root_img` as the plain list
`pred['keypoints'][41].copy()` (with its depth entry updated in place) and
passes it to `_pixel2cam`, so the first `pixel2cam` call below always
raises and the rest of the included path (kept for fidelity to the source
text) is unreachable. -/
def mrrpeSample (pred : Pred) (item : DbItem) :
    Except String (Bool × Pt3 × Pt3) :=
  if mrrpeIncluded item then do
    let leftCam ← pixel2cam
      (.list1 (setZ (pred.keypoints.getD 41 ⟨0, 0, 0⟩)
        ((pred.keypoints.getD 41 ⟨0, 0, 0⟩).z + item.abs_depth.1 +
          pred.rel_root_depth)))
      item.focal item.princpt
    let rightCam ← pixel2cam
      (.list1 (setZ (pred.keypoints.getD 20 ⟨0, 0, 0⟩)
        ((pred.keypoints.getD 20 ⟨0, 0, 0⟩).z + item.abs_depth.1)))
      item.focal item.princpt
    pure (true,
      leftCam.getD 0 ⟨0, 0, 0⟩ - rightCam.getD 0 ⟨0, 0, 0⟩,
      item.joints_cam.getD 41 ⟨0, 0, 0⟩ - item.joints_cam.getD 20 ⟨0, 0, 0⟩)
  else pure (false, ⟨0, 0, 0⟩, ⟨0, 0, 0⟩)

/-- The MRRPE part of the `zip(preds, self.db)` loop of `_report_metric`:
the three appended lists, with a `TypeError` escaping from the first
sample that passes the inclusion test. -/
def mrrpeLists : List (Pred × DbItem) →
    Except String (List Pt3 × List Pt3 × List Bool)
  | [] => pure ([], [], [])
  | pi :: rest => do
    let s ← mrrpeSample pi.1 pi.2
    let (ps, gs, ms) ← mrrpeLists rest
    pure (s.2.1 :: ps, s.2.2 :: gs, s.1 :: ms)

/-- The MRRPE value as `_report_metric` computes it: run the loop over
`zip(preds, self.db)` (which raises at the first included sample), then
feed the three lists to `keypoint_epe` (lines 512-515). -/
noncomputable def mrrpeOf (preds : List Pred) (db : List DbItem) :
    Except String (Option ℝ) := do
  let (ps, gs, ms) ← mrrpeLists (preds.zip db)
  pure (keypoint_epe ps gs ms)

/-- Lines 463-492: per-sample MPJPE coordinates.  Predicted pixel depths get
the per-hand absolute depth added, are reprojected with `_pixel2cam`, and
both prediction and ground truth are recentered on their own wrist. -/
def mpjpeSampleCoords (pred : Pred) (item : DbItem) :
    List Pt3 × List Pt3 :=
  let pimg := pred.keypoints.mapIdx (fun i p =>
    if i < 21 then setZ p (p.z + item.abs_depth.1)
    else setZ p (p.z + item.abs_depth.2))
  let pcam := pimg.map (fun p => pixel2camPt p item.focal item.princpt)
  let pcam2 := pcam.mapIdx (fun i p =>
    if i < 21 then p - pcam.getD 20 ⟨0, 0, 0⟩
    else p - pcam.getD 41 ⟨0, 0, 0⟩)
  let g := item.joints_cam
  let g2 := g.mapIdx (fun i p =>
    if i < 21 then p - g.getD 20 ⟨0, 0, 0⟩
    else p - g.getD 41 ⟨0, 0, 0⟩)
  (pcam2, g2)

/-- Lines 481-492: the per-sample `(single, interacting, all)` MPJPE masks,
partitioned by `item['hand_type'].all()`. -/
def mpjpeSampleMasks (item : DbItem) : List Bool × List Bool × List Bool :=
  let mask := item.joints_3d_visible.map (fun q => decide (0 < q))
  if item.hand_type.1 ≠ 0 ∧ item.hand_type.2 ≠ 0 then
    (List.replicate 42 false, mask, mask)
  else (mask, List.replicate 42 false, mask)

/-- Lines 517-527: the `(MPJPE_all, MPJPE_single, MPJPE_interacting)`
values, each a masked Euclidean mean over all (sample, joint) positions. -/
noncomputable def mpjpeOf (preds : List Pred) (db : List DbItem) :
    Option ℝ × Option ℝ × Option ℝ :=
  let pairs := preds.zip db
  let coords := pairs.map (fun pi => mpjpeSampleCoords pi.1 pi.2)
  let ps := (coords.map (fun co => co.1)).flatten
  let gs := (coords.map (fun co => co.2)).flatten
  let masks := pairs.map (fun pi => mpjpeSampleMasks pi.2)
  (keypoint_epe ps gs ((masks.map (fun ms => ms.2.2)).flatten),
   keypoint_epe ps gs ((masks.map (fun ms => ms.1)).flatten),
   keypoint_epe ps gs ((masks.map (fun ms => ms.2.1)).flatten))

/-- `_get_accuracy` (lines 387-405):
`acc = (outputs == gts).all(axis=1)` then `np.mean(acc[masks])` — the mean
over the masked selection of exact-match indicators, NaN (`none`) when the
selection is empty. -/
def getAccuracy (outputs gts : List (ℤ × ℤ)) (masks : List Bool) : Option ℚ :=
  npMean ((maskSelect (List.zipWith (fun o g => decide (o = g)) outputs gts)
    masks).map (fun b => if b then (1 : ℚ) else 0))

/-- Lines 494-498 and 529-532: the Handedness_acc value, with the mask
`item['hand_type_valid'] > 0`, iterating `zip(preds, self.db)`. -/
def handednessOf (preds : List Pred) (db : List DbItem) : Option ℚ :=
  let pairs := preds.zip db
  getAccuracy (pairs.map (fun pi => pi.1.hand_type))
    (pairs.map (fun pi => pi.2.hand_type))
    (pairs.map (fun pi => decide (0 < pi.2.hand_type_valid)))

/-- `_report_metric` (lines 407-534): after loading the results file it runs
`assert len(preds) == len(self.db)` and only then runs the per-sample loop
and computes the requested metrics, appending `MRRPE`, then the three
`MPJPE` entries, then `Handedness_acc`, in that order.  The MRRPE loop body
can raise `TypeError` (see `mrrpeSample`); that exception propagates out of
`_report_metric` before any metric entry is produced, which the initial
monadic bind on `mrrpeOf` models. -/
noncomputable def reportMetric (preds : List Pred) (db : List DbItem)
    (metrics : List String) : Except String (List (String × Option ℝ)) :=
  if preds.length = db.length then do
    let mrrpeEntries ← if "MRRPE" ∈ metrics then
        (mrrpeOf preds db).map (fun v => [("MRRPE", v)])
      else pure []
    pure (mrrpeEntries ++
      (if "MPJPE" ∈ metrics then
        [("MPJPE_all", (mpjpeOf preds db).1),
         ("MPJPE_single", (mpjpeOf preds db).2.1),
         ("MPJPE_interacting", (mpjpeOf preds db).2.2)]
      else []) ++
      (if "Handedness_acc" ∈ metrics then
        [("Handedness_acc",
          Option.map (fun q => (q : ℝ)) (handednessOf preds db))]
      else []))
  else .error "AssertionError: len(preds) == len(self.db)"

/-- The fixed metric whitelist of `evaluate` (line 323). -/
def allowed_metrics : List String := ["MRRPE", "MPJPE", "Handedness_acc"]

/-- Lines 324-326 of `evaluate`: the validation loop raising
`KeyError(f'metric ... is not supported')` at the first unsupported name. -/
def checkMetrics : List String → Except String Unit
  | [] => .ok ()
  | m :: rest =>
    if m ∈ allowed_metrics then checkMetrics rest
    else .error ("metric " ++ m ++ " is not supported")

/-- The control flow of `evaluate` (lines 294-385): validate the metric
names, and only on success assemble and persist the results file (returned
here as the first component, standing for the written
`result_keypoints.json`) and compute the metrics via `_report_metric`.  An
`Except.error` outcome therefore means no results file was produced and no
metric was computed. -/
noncomputable def evaluateModel (metrics : List String) (kpts : List Pred)
    (db : List DbItem) :
    Except String (List Pred × List (String × Option ℝ)) := do
  checkMetrics metrics
  let infos ← reportMetric kpts db metrics
  pure (kpts, infos)

/-! ### Shared lemmas -/

theorem maskSelect_map_map {α β : Type} (l : List α) (f : α → β)
    (m : α → Bool) :
    maskSelect (l.map f) (l.map m) = (l.filter m).map f := by
  induction l with
  | nil => rfl
  | cons a t ih =>
    by_cases h : m a <;>
      simp [maskSelect, List.filter_cons, h] <;>
      simpa [maskSelect] using ih

theorem maskSelect_eq_nil {α : Type} (xs : List α) (mask : List Bool)
    (h : ∀ b ∈ mask, b = false) : maskSelect xs mask = [] := by
  unfold maskSelect
  rw [List.filterMap_eq_nil_iff]
  intro p hp
  have hb : p.2 ∈ mask := (List.of_mem_zip hp).2
  rw [h p.2 hb]
  rfl

theorem zipWith_map_same {α β γ δ : Type} (l : List α) (f : β → γ → δ)
    (g : α → β) (h : α → γ) :
    List.zipWith f (l.map g) (l.map h) = l.map (fun a => f (g a) (h a)) := by
  induction l with
  | nil => rfl
  | cons a t ih => simp [ih]

theorem sum_indicator (bs : List Bool) :
    ((bs.map (fun b => if b then (1 : ℚ) else 0)).sum) = (bs.count true : ℚ) := by
  induction bs with
  | nil => simp
  | cons b t ih =>
    cases b <;> simp [List.count_cons, ih, add_comm]

/-! ### Claims -/

/-- C1: the claim says record construction completes with the third column
of `joints_3d` holding the wrist-relative depth.  The code instead reads
and writes column index 3 of 42×3 arrays (`joints_3d[:21, 3] =
joint_cam[:21, 3] - joint_cam[20, 3]`), which is out of bounds for axis 1
of size 3: for every 42×3 `joint_cam`, the assembly raises `IndexError`
and never completes. -/
theorem c1_joints3d_column_index_out_of_bounds
    (joint_img : List (ℚ × ℚ)) (joint_cam : List (List ℚ))
    (hlen : joint_cam.length = 42) (hrow : ∀ r ∈ joint_cam, r.length = 3) :
    buildJoints3d joint_img joint_cam = .error "IndexError" := by
  obtain ⟨a, t, rfl⟩ : ∃ a t, joint_cam = a :: t := by
    cases joint_cam with
    | nil => simp at hlen
    | cons a t => exact ⟨a, t, rfl⟩
  have hmem : a ∈ (a :: t).take 21 := by
    have h21 : (a :: t).take 21 = a :: t.take 20 := rfl
    rw [h21]
    exact List.mem_cons_self a _
  have h3 : a.length = 3 := hrow a (List.mem_cons_self a t)
  have hnc : ¬ ∀ r ∈ (a :: t).take 21, 3 < r.length := by
    intro hall
    have := hall a hmem
    omega
  have hcol : npSliceCol ((a :: t).take 21) 3 = .error "IndexError" := by
    unfold npSliceCol
    rw [if_neg hnc]
  unfold buildJoints3d
  rw [hcol]
  rfl

def c1camW : List (List ℚ) := List.replicate 42 [0, 0, 0]

def c1imgW : List (ℚ × ℚ) := List.replicate 42 (0, 0)

/-- Witness for C1: a concrete all-zero 42×3 camera-joint array makes the
`joints_3d` assembly raise `IndexError`. -/
theorem c1_joints3d_witness :
    c1camW.length = 42 ∧ (∀ r ∈ c1camW, r.length = 3) ∧
    buildJoints3d c1imgW c1camW = .error "IndexError" :=
  ⟨by decide, by decide,
    c1_joints3d_column_index_out_of_bounds c1imgW c1camW (by decide)
      (by decide)⟩

/-- C2: the claim says the rootnet (external root-depth estimate) table is
loaded and consulted exactly in the external-estimator configuration.  In
the code the polarity is inverted: `__init__` demands a
`rootnet_result_file` precisely when `use_gt_root_depth` is `True`, and
`_get_db` binds `rootnet_result` only under `if self.use_gt_root_depth:`,
so in the external-estimator configuration (`use_gt_root_depth=False`)
every record lookup hits an unbound name (`NameError`) no matter what the
table contains — a missing entry is never the failure actually reached.
The ground-truth half of the claim (annotated bbox, padding 1.25, wrist
camera depths) does hold, as the third conjunct shows. -/
theorem c2_rootnet_table_polarity_bug
    (tbl : List (String × RootEntry))
    (xywh2cs : (ℚ × ℚ × ℚ × ℚ) → ℚ → (ℚ × ℚ) × (ℚ × ℚ))
    (annBbox : ℚ × ℚ × ℚ × ℚ) (annId : String) (zR zL : ℚ) :
    getDbRootInfo false tbl xywh2cs annBbox annId zR zL =
      .error "NameError: name rootnet_result is not defined" ∧
    rootnetFileCheck true none = .error "AssertionError" ∧
    getDbRootInfo true tbl xywh2cs annBbox annId zR zL =
      .ok (xywh2cs annBbox (125 / 100), (zR, zL)) := by
  refine ⟨?_, rfl, ?_⟩
  · simp [getDbRootInfo, loadedRootnetTable, rootDepthInfo]
  · simp [getDbRootInfo, loadedRootnetTable, rootDepthInfo]

/-- C6: root-validity propagation.  If the right wrist flag (index 20) is
0 then after `joint_valid[:20] *= joint_valid[20]` all indices 0-20 are 0;
if the left wrist flag (index 41) is 0 then after
`joint_valid[21:] *= joint_valid[41]` all indices 21-41 are 0, whatever
the original flags were. -/
theorem c6_root_validity_propagation (v : Fin 42 → ℚ) :
    (v 20 = 0 → ∀ i : Fin 42, (i : ℕ) ≤ 20 → propagateRootValid v i = 0) ∧
    (v 41 = 0 → ∀ i : Fin 42, 21 ≤ (i : ℕ) → propagateRootValid v i = 0) := by
  constructor
  · intro h20 i hi
    by_cases hlt : (i : ℕ) < 20
    · simp [propagateRootValid, hlt, h20]
    · have hval : (i : ℕ) = ((20 : Fin 42) : ℕ) := by
        rw [show ((20 : Fin 42) : ℕ) = 20 from by decide]
        omega
      have hi20 : i = (20 : Fin 42) := Fin.ext hval
      subst hi20
      show (if ((20 : Fin 42) : ℕ) < 20 then _ else
        if 21 ≤ ((20 : Fin 42) : ℕ) then _ else v 20) = 0
      rw [if_neg (by decide), if_neg (by decide)]
      exact h20
  · intro h41 i hi
    have hnlt : ¬ (i : ℕ) < 20 := by omega
    simp [propagateRootValid, hnlt, hi, h41]

def c6visW : Fin 42 → ℚ := fun i => if i = 20 ∨ i = 41 then 0 else 1

/-- Witness for C6: a concrete visibility vector with both wrist flags 0
ends with (for example) indices 0 and 41 invalid. -/
theorem c6_propagation_witness :
    c6visW 20 = 0 ∧ c6visW 41 = 0 ∧
    propagateRootValid c6visW 0 = 0 ∧ propagateRootValid c6visW 41 = 0 :=
  ⟨by decide, by decide,
    (c6_root_validity_propagation c6visW).1 (by decide) 0 (by decide),
    (c6_root_validity_propagation c6visW).2 (by decide) 41 (by decide)⟩

/-- C7: `_process_handtype` maps `right` to `[1, 0]`, `left` to `[0, 1]`,
`interacting` to `[1, 1]`, and raises (via `assert 0`) on every other
string, never returning a default. -/
theorem c7_handtype_mapping :
    processHandtype "right" = .ok (1, 0) ∧
    processHandtype "left" = .ok (0, 1) ∧
    processHandtype "interacting" = .ok (1, 1) ∧
    ∀ s : String, s ≠ "right" → s ≠ "left" → s ≠ "interacting" →
      processHandtype s =
        .error ("AssertionError: Not support hand type: " ++ s) := by
  refine ⟨by simp [processHandtype], by simp [processHandtype],
    by simp [processHandtype], ?_⟩
  intro s h1 h2 h3
  simp [processHandtype, h1, h2, h3]

/-- Witness for C7: the unrecognized label `both` raises. -/
theorem c7_handtype_witness :
    "both" ≠ "right" ∧ "both" ≠ "left" ∧ "both" ≠ "interacting" ∧
    processHandtype "both" =
      .error ("AssertionError: Not support hand type: " ++ "both") :=
  ⟨by decide, by decide, by decide,
    c7_handtype_mapping.2.2.2 "both" (by decide) (by decide) (by decide)⟩

theorem mrrpeSample_err (p : Pred) (item : DbItem)
    (h : mrrpeIncluded item = true) :
    mrrpeSample p item =
      .error "TypeError: list indices must be integers or slices, not tuple"
    := by
  unfold mrrpeSample
  rw [if_pos h]
  rfl

theorem mrrpeSample_excluded (p : Pred) (item : DbItem)
    (h : ¬ mrrpeIncluded item = true) :
    mrrpeSample p item = pure (false, ⟨0, 0, 0⟩, ⟨0, 0, 0⟩) := by
  unfold mrrpeSample
  rw [if_neg h]

theorem mrrpeLists_err (pairs : List (Pred × DbItem))
    (h : ∃ pi ∈ pairs, mrrpeIncluded pi.2 = true) :
    mrrpeLists pairs =
      .error "TypeError: list indices must be integers or slices, not tuple"
    := by
  induction pairs with
  | nil => simp at h
  | cons a t ih =>
    by_cases ha : mrrpeIncluded a.2 = true
    · have hs := mrrpeSample_err a.1 a.2 ha
      simp only [mrrpeLists, hs]
      rfl
    · obtain ⟨pi, hpi, hinc⟩ := h
      have hpit : pi ∈ t := by
        rcases List.mem_cons.1 hpi with h' | h'
        · subst h'; exact absurd hinc ha
        · exact h'
      have hs := mrrpeSample_excluded a.1 a.2 ha
      have ht := ih ⟨pi, hpit, hinc⟩
      simp only [mrrpeLists, hs, ht]
      rfl

theorem mrrpeOf_err (preds : List Pred) (db : List DbItem)
    (h : ∃ pi ∈ preds.zip db, mrrpeIncluded pi.2 = true) :
    mrrpeOf preds db =
      .error "TypeError: list indices must be integers or slices, not tuple"
    := by
  unfold mrrpeOf
  rw [mrrpeLists_err _ h]
  rfl

/-- C5: the world→camera→pixel→camera round trip.  With the depth carried
through separately (the pixel z is zeroed by `_cam2pixel` and restored
before `_pixel2cam`, as the evaluation code does), the recovered camera
z is exactly the original, and the recovered x and y differ from the
originals by exactly the relative factor `qeps / (z + qeps)` introduced by
the `1e-8` depth guard — i.e. the originals are recovered up to that
floating-point-style tolerance. -/
theorem c5_coordinate_roundtrip (w T : Pt3) (R : Mat3) (f c : ℚ × ℚ)
    (hf1 : f.1 ≠ 0) (hf2 : f.2 ≠ 0) (hz : 0 < (world2camPt w R T).z) :
    (roundTrip (world2camPt w R T) f c).z = (world2camPt w R T).z ∧
    |(roundTrip (world2camPt w R T) f c).x - (world2camPt w R T).x| =
      |(world2camPt w R T).x| * qeps / ((world2camPt w R T).z + qeps) ∧
    |(roundTrip (world2camPt w R T) f c).y - (world2camPt w R T).y| =
      |(world2camPt w R T).y| * qeps / ((world2camPt w R T).z + qeps) := by
  set cam := world2camPt w R T with hcam
  have heps : (0 : ℚ) < qeps := by norm_num [qeps]
  have hden : (0 : ℚ) < cam.z + qeps := by linarith
  have hden' : cam.z + qeps ≠ 0 := ne_of_gt hden
  refine ⟨rfl, ?_, ?_⟩
  · have hx : (roundTrip cam f c).x - cam.x =
        -(cam.x * qeps / (cam.z + qeps)) := by
      show (cam.x / (cam.z + qeps) * f.1 + c.1 - c.1) / f.1 * cam.z - cam.x = _
      field_simp
      ring
    rw [hx, abs_neg, abs_div, abs_mul, abs_of_pos hden, abs_of_pos heps]
  · have hy : (roundTrip cam f c).y - cam.y =
        -(cam.y * qeps / (cam.z + qeps)) := by
      show (cam.y / (cam.z + qeps) * f.2 + c.2 - c.2) / f.2 * cam.z - cam.y = _
      field_simp
      ring
    rw [hy, abs_neg, abs_div, abs_mul, abs_of_pos hden, abs_of_pos heps]

def c5R : Mat3 := ⟨⟨1, 0, 0⟩, ⟨0, 1, 0⟩, ⟨0, 0, 1⟩⟩

/-- Witness for C5: a concrete round trip with the identity rotation,
`w = (3, 4, 5)`, `f = (2, 3)`, `c = (7, 9)`. -/
theorem c5_roundtrip_witness :
    ((2 : ℚ), (3 : ℚ)).1 ≠ 0 ∧ ((2 : ℚ), (3 : ℚ)).2 ≠ 0 ∧
    0 < (world2camPt ⟨3, 4, 5⟩ c5R ⟨0, 0, 0⟩).z ∧
    ((roundTrip (world2camPt ⟨3, 4, 5⟩ c5R ⟨0, 0, 0⟩) (2, 3) (7, 9)).z =
        (world2camPt ⟨3, 4, 5⟩ c5R ⟨0, 0, 0⟩).z ∧
      |(roundTrip (world2camPt ⟨3, 4, 5⟩ c5R ⟨0, 0, 0⟩) (2, 3) (7, 9)).x -
          (world2camPt ⟨3, 4, 5⟩ c5R ⟨0, 0, 0⟩).x| =
        |(world2camPt ⟨3, 4, 5⟩ c5R ⟨0, 0, 0⟩).x| * qeps /
          ((world2camPt ⟨3, 4, 5⟩ c5R ⟨0, 0, 0⟩).z + qeps) ∧
      |(roundTrip (world2camPt ⟨3, 4, 5⟩ c5R ⟨0, 0, 0⟩) (2, 3) (7, 9)).y -
          (world2camPt ⟨3, 4, 5⟩ c5R ⟨0, 0, 0⟩).y| =
        |(world2camPt ⟨3, 4, 5⟩ c5R ⟨0, 0, 0⟩).y| * qeps /
          ((world2camPt ⟨3, 4, 5⟩ c5R ⟨0, 0, 0⟩).z + qeps)) :=
  ⟨by norm_num, by norm_num, by norm_num [world2camPt, dotPt, c5R],
    c5_coordinate_roundtrip ⟨3, 4, 5⟩ ⟨0, 0, 0⟩ c5R (2, 3) (7, 9)
      (by norm_num) (by norm_num) (by norm_num [world2camPt, dotPt, c5R])⟩

def c3pred : Pred := ⟨[], (1, 0), 0⟩

def c3item : DbItem := ⟨(1, 0), 0, [], (0, 0), [], (1, 1), (0, 0)⟩

/-- Counterexample to C3: with one sample whose handedness-validity flag is
0 (so the handedness mask is all false), the metric computation does not
raise — `_report_metric` completes and reports numpy's NaN (here `none`)
for `Handedness_acc`. -/
theorem c3_zero_valid_nan_counterexample :
    c3item.hand_type_valid = 0 ∧
    reportMetric [c3pred] [c3item] ["Handedness_acc"] =
      .ok [("Handedness_acc", none)] := by
  refine ⟨rfl, ?_⟩
  have hm : handednessOf [c3pred] [c3item] = none := by decide
  unfold reportMetric
  rw [if_pos (show [c3pred].length = [c3item].length from rfl),
    if_neg (show ¬ "MRRPE" ∈ ["Handedness_acc"] from by decide), pure_bind,
    if_neg (show ¬ "MPJPE" ∈ ["Handedness_acc"] from by decide),
    if_pos (show "Handedness_acc" ∈ ["Handedness_acc"] from by decide), hm]
  rfl

/-- C3 as amended: when a metric's boolean mask selects zero positions the
computation returns NaN (modelled as `none`) instead of raising: the
handedness accuracy reported by `_report_metric` is the NaN marker when
every sample's handedness-validity flag is non-positive, and the
(spec-modelled) Euclidean averaging primitive yields the NaN marker on an
all-false mask. -/
theorem c3_amended_zero_valid_yields_nan :
    (∀ (preds : List Pred) (db : List DbItem),
      preds.length = db.length →
      (∀ item ∈ db, item.hand_type_valid ≤ 0) →
      reportMetric preds db ["Handedness_acc"] =
        .ok [("Handedness_acc", none)]) ∧
    (∀ (ps gs : List Pt3) (mask : List Bool),
      (∀ b ∈ mask, b = false) → keypoint_epe ps gs mask = none) := by
  constructor
  · intro preds db hlen hvalid
    have hfalse : ∀ b ∈ (preds.zip db).map
        (fun pi => decide (0 < pi.2.hand_type_valid)), b = false := by
      intro b hb
      obtain ⟨pi, hpi, rfl⟩ := List.mem_map.1 hb
      have hmem : pi.2 ∈ db := (List.of_mem_zip hpi).2
      simpa using not_lt.2 (hvalid pi.2 hmem)
    have hm : handednessOf preds db = none := by
      simp only [handednessOf, getAccuracy]
      rw [maskSelect_eq_nil _ _ hfalse]
      rfl
    unfold reportMetric
    rw [if_pos hlen,
      if_neg (show ¬ "MRRPE" ∈ ["Handedness_acc"] from by decide), pure_bind,
      if_neg (show ¬ "MPJPE" ∈ ["Handedness_acc"] from by decide),
      if_pos (show "Handedness_acc" ∈ ["Handedness_acc"] from by decide), hm]
    rfl
  · intro ps gs mask hfalse
    unfold keypoint_epe
    rw [maskSelect_eq_nil _ _ hfalse]
    rfl

/-- Witness for the amended C3, at the concrete one-sample input of the
counterexample and a concrete all-false mask. -/
theorem c3_amended_witness :
    ([c3pred].length = [c3item].length) ∧
    (∀ item ∈ [c3item], item.hand_type_valid ≤ 0) ∧
    reportMetric [c3pred] [c3item] ["Handedness_acc"] =
      .ok [("Handedness_acc", none)] ∧
    (∀ b ∈ [false], b = false) ∧
    keypoint_epe [] [] [false] = none :=
  ⟨rfl, by decide,
    c3_amended_zero_valid_yields_nan.1 [c3pred] [c3item] rfl (by decide),
    by decide, c3_amended_zero_valid_yields_nan.2 [] [] [false] (by decide)⟩

def c4pred : Pred := ⟨List.replicate 42 ⟨0, 0, 0⟩, (1, 1), 0⟩

def c4item : DbItem :=
  ⟨(1, 1), 1, List.replicate 42 1, (0, 0),
    List.replicate 42 ⟨0, 0, 0⟩, (1, 1), (0, 0)⟩

/-- C4: the claim describes a masked MRRPE average over the included
(interacting, both-wrists-visible) samples, with excluded samples
contributing only neutral zero placeholders.  The code can never produce
that average: the MRRPE branch passes the plain JSON-loaded list
`pred['keypoints'][41].copy()` to `_pixel2cam` (unlike the MPJPE branch,
which wraps the keypoints in `np.array` first), and `pixel_coord[:, 0]`
raises `TypeError` on a plain list — so whenever MRRPE is requested and any
sample passes the inclusion test, `_report_metric` crashes at that sample
and no MRRPE value is reported at all. -/
theorem c4_mrrpe_typeerror_on_included (preds : List Pred) (db : List DbItem)
    (metrics : List String) (hmet : "MRRPE" ∈ metrics)
    (hlen : preds.length = db.length)
    (hinc : ∃ pi ∈ preds.zip db, mrrpeIncluded pi.2 = true) :
    reportMetric preds db metrics =
      .error "TypeError: list indices must be integers or slices, not tuple"
    := by
  have hmr := mrrpeOf_err preds db hinc
  unfold reportMetric
  rw [if_pos hlen, if_pos hmet, hmr]
  rfl

/-- Witness for C4: one concrete sample with interacting hand type and both
wrists visible makes the MRRPE computation raise `TypeError`. -/
theorem c4_mrrpe_typeerror_witness :
    "MRRPE" ∈ ["MRRPE"] ∧ [c4pred].length = [c4item].length ∧
    (∃ pi ∈ [c4pred].zip [c4item], mrrpeIncluded pi.2 = true) ∧
    reportMetric [c4pred] [c4item] ["MRRPE"] =
      .error "TypeError: list indices must be integers or slices, not tuple"
    :=
  ⟨by decide, rfl, ⟨(c4pred, c4item), by decide, by decide⟩,
    c4_mrrpe_typeerror_on_included [c4pred] [c4item] ["MRRPE"] (by decide) rfl
      ⟨(c4pred, c4item), by decide, by decide⟩⟩

theorem count_true_map {α : Type} (l : List α) (f : α → Bool) :
    (l.map f).count true = (l.filter f).length := by
  induction l with
  | nil => rfl
  | cons a t ih =>
    by_cases hfa : f a <;> simp [List.count_cons, List.filter_cons, hfa, ih]

theorem checkMetrics_error_of_unsupported (metrics : List String) (m : String)
    (hm : m ∈ metrics) (hbad : m ∉ allowed_metrics) :
    ∃ m', m' ∈ metrics ∧ m' ∉ allowed_metrics ∧
      checkMetrics metrics =
        .error ("metric " ++ m' ++ " is not supported") := by
  induction metrics with
  | nil => cases hm
  | cons a rest ih =>
    by_cases ha : a ∈ allowed_metrics
    · have hm' : m ∈ rest := by
        rcases List.mem_cons.1 hm with h | h
        · subst h; exact absurd ha hbad
        · exact h
      obtain ⟨m', h1, h2, h3⟩ := ih hm'
      exact ⟨m', List.mem_cons_of_mem a h1, h2, by
        simpa [checkMetrics, ha] using h3⟩
    · exact ⟨a, List.mem_cons_self a rest, ha, by simp [checkMetrics, ha]⟩

/-- C8: calling `evaluate` with a metric name outside
`{MRRPE, MPJPE, Handedness_acc}` raises `KeyError` during the validation
loop at the top of the call, for any outputs and any database — the
`Except.error` outcome of `evaluateModel` means the results file (the
success value's first component) is never produced and `_report_metric` is
never run. -/
theorem c8_unsupported_metric_fatal (metrics : List String) (kpts : List Pred)
    (db : List DbItem) (m : String) (hm : m ∈ metrics)
    (hbad : m ∉ allowed_metrics) :
    ∃ m', m' ∈ metrics ∧ m' ∉ allowed_metrics ∧
      evaluateModel metrics kpts db =
        .error ("metric " ++ m' ++ " is not supported") := by
  obtain ⟨m', h1, h2, h3⟩ := checkMetrics_error_of_unsupported metrics m hm hbad
  refine ⟨m', h1, h2, ?_⟩
  unfold evaluateModel
  rw [h3]
  rfl

/-- Witness for C8: requesting the unsupported metric name `EPE` fails. -/
theorem c8_unsupported_metric_witness :
    "EPE" ∈ ["EPE"] ∧ "EPE" ∉ allowed_metrics ∧
    ∃ m', m' ∈ ["EPE"] ∧ m' ∉ allowed_metrics ∧
      evaluateModel ["EPE"] [] [] =
        .error ("metric " ++ m' ++ " is not supported") :=
  ⟨by decide, by decide,
    c8_unsupported_metric_fatal ["EPE"] [] [] "EPE" (by decide) (by decide)⟩

/-- C9: the handedness accuracy is the fraction, among the samples whose
handedness-validity flag is positive, of samples whose predicted 2-element
hand-type vector exactly equals the ground-truth vector. -/
theorem c9_handedness_accuracy (preds : List Pred) (db : List DbItem)
    (h : 0 < ((preds.zip db).filter
      (fun pi => decide (0 < pi.2.hand_type_valid))).length) :
    handednessOf preds db =
      some (((((preds.zip db).filter
          (fun pi => decide (0 < pi.2.hand_type_valid))).filter
          (fun pi => decide (pi.1.hand_type = pi.2.hand_type))).length : ℚ) /
        (((preds.zip db).filter
          (fun pi => decide (0 < pi.2.hand_type_valid))).length : ℚ)) := by
  simp only [handednessOf, getAccuracy]
  rw [zipWith_map_same, maskSelect_map_map]
  have hne : ¬ ((((preds.zip db).filter
      (fun pi => decide (0 < pi.2.hand_type_valid))).map
        (fun pi => decide (pi.1.hand_type = pi.2.hand_type))).map
          (fun b => if b then (1 : ℚ) else 0)).isEmpty = true := by
    intro hemp
    rw [List.isEmpty_iff] at hemp
    rw [List.map_eq_nil_iff] at hemp
    rw [List.map_eq_nil_iff] at hemp
    rw [hemp] at h
    simp at h
  rw [npMean, if_neg hne, sum_indicator, count_true_map]
  simp

def c9preds : List Pred :=
  [⟨[], (1, 0), 0⟩, ⟨[], (0, 1), 0⟩, ⟨[], (1, 1), 0⟩, ⟨[], (0, 1), 0⟩]

def c9db : List DbItem :=
  [⟨(1, 0), 1, [], (0, 0), [], (0, 0), (0, 0)⟩,
   ⟨(0, 1), 1, [], (0, 0), [], (0, 0), (0, 0)⟩,
   ⟨(1, 1), 1, [], (0, 0), [], (0, 0), (0, 0)⟩,
   ⟨(1, 0), 1, [], (0, 0), [], (0, 0), (0, 0)⟩]

/-- Witness for C9: the spec's scenario — ground truth
`[1,0], [0,1], [1,1], [1,0]`, all handedness-valid, predictions
`[1,0], [0,1], [1,1], [0,1]` — yields accuracy `3/4`. -/
theorem c9_handedness_witness :
    0 < ((c9preds.zip c9db).filter
      (fun pi => decide (0 < pi.2.hand_type_valid))).length ∧
    handednessOf c9preds c9db = some (3 / 4) := by
  refine ⟨by decide, ?_⟩
  have h1 : ((((c9preds.zip c9db).filter
      (fun pi => decide (0 < pi.2.hand_type_valid))).filter
      (fun pi => decide (pi.1.hand_type = pi.2.hand_type))).length) = 3 := by
    decide
  have h2 : (((c9preds.zip c9db).filter
      (fun pi => decide (0 < pi.2.hand_type_valid))).length) = 4 := by decide
  rw [c9_handedness_accuracy c9preds c9db (by decide), h1, h2]
  norm_num

/-- C10: `_report_metric` asserts that the deduplicated results file has
exactly as many prediction entries as there are database records; on any
length mismatch it fails with `AssertionError` before computing any
metric. -/
theorem c10_pred_count_assertion (preds : List Pred) (db : List DbItem)
    (metrics : List String) (h : preds.length ≠ db.length) :
    reportMetric preds db metrics =
      .error "AssertionError: len(preds) == len(self.db)" := by
  unfold reportMetric
  rw [if_neg h]

def c10item : DbItem := ⟨(1, 0), 1, [], (0, 0), [], (0, 0), (0, 0)⟩

/-- Witness for C10: zero predictions against one database record fail the
assertion. -/
theorem c10_pred_count_witness :
    ([] : List Pred).length ≠ [c10item].length ∧
    reportMetric [] [c10item] ["MPJPE"] =
      .error "AssertionError: len(preds) == len(self.db)" :=
  ⟨by decide, c10_pred_count_assertion [] [c10item] ["MPJPE"] (by decide)⟩

end InterHand3D
